import Mathlib

/-!
Shallow embedding of the MEXC/Bitget trading bot (`src/app.py`).

Python floats are modelled as exact rationals (ℚ); `datetime` values are
modelled at calendar-date granularity by a `Nat` (the only computation the
code ever performs on a stored timestamp is extracting its date).
Thread handles, locks, events and the sync timestamp (`monitor_thread`,
`sync_thread`, `stop_monitoring`, `stop_syncing`, `position_lock`,
`last_sync_time`) are runtime bookkeeping with no bearing on the ledger
state and are left out of the state record.  Network I/O (Bitget API calls,
`save_state` file writes triggered inside methods) is effect-free on the
ledger fields and is dropped; persistence itself is modelled by the
`save_state`/`load_state` pair below.
-/

namespace MexcBot

/-- Module-level constant `PHASE_1_REINVEST = 1.0` (100% reinvest in growth phase). -/
def PHASE_1_REINVEST : ℚ := 1

/-- Module-level constant `PHASE_2_REINVEST = 0.05` (5% reinvest in extraction phase). -/
def PHASE_2_REINVEST : ℚ := 0.05

/-- Module-level constant `PROFIT_RESET_THRESHOLD = 2.0` (reset at 200% profit). -/
def PROFIT_RESET_THRESHOLD : ℚ := 2

/-- Environment-configurable module constants (defaults from `app.py`). -/
structure Config where
  take_profit_pct : ℚ
  stop_loss_pct : ℚ
  phase_1_threshold : ℚ
  max_drawdown_stop : ℚ
deriving DecidableEq, Repr

/-- The defaults: `TAKE_PROFIT_PCT=1.3`, `STOP_LOSS_PCT=0.75`,
`PHASE_1_THRESHOLD=2000.0`, `MAX_DRAWDOWN_STOP=50.0`. -/
def defaultConfig : Config :=
  { take_profit_pct := 1.3
    stop_loss_pct := 0.75
    phase_1_threshold := 2000
    max_drawdown_stop := 50 }

/-- Position side: the strings `'long'` / `'short'` in the Python dict. -/
inductive Side where
  | long
  | short
deriving DecidableEq, Repr

/-- The `current_position` dict built in `open_position` / sync recovery. -/
structure Position where
  side : Side
  entry_price : ℚ
  qty : ℚ
  tp_price : ℚ
  sl_price : ℚ
  open_time : Nat
deriving DecidableEq, Repr

/-- A `trade_history` record appended by `close_position`. -/
structure TradeRecord where
  side : Side
  entry_price : ℚ
  exit_price : ℚ
  qty : ℚ
  pnl : ℚ
  balance_after : ℚ
  close_time : Nat
  close_reason : String
deriving DecidableEq, Repr

/-- The ledger fields of class `VirtualBalance`. -/
structure VirtualBalance where
  initial_balance : ℚ
  starting_balance : ℚ
  current_balance : ℚ
  total_trades : Nat
  winning_trades : Nat
  losing_trades : Nat
  total_pnl : ℚ
  current_position : Option Position
  trade_history : List TradeRecord
  max_drawdown : ℚ
  peak_balance : ℚ
  consecutive_losses : Nat
  recent_pnls : List ℚ
  daily_trade_count : Nat
  last_trade_date : Option Nat
  reset_count : Nat
  phase_1_resets : Nat
  phase_2_resets : Nat
  total_withdrawn : ℚ
  total_profit_generated : ℚ
  trading_paused : Bool
deriving DecidableEq, Repr

/-- `VirtualBalance.__init__(initial_balance)`. -/
def VirtualBalance.init (b : ℚ) : VirtualBalance :=
  { initial_balance := b
    starting_balance := b
    current_balance := b
    total_trades := 0
    winning_trades := 0
    losing_trades := 0
    total_pnl := 0
    current_position := none
    trade_history := []
    max_drawdown := 0
    peak_balance := b
    consecutive_losses := 0
    recent_pnls := []
    daily_trade_count := 0
    last_trade_date := none
    reset_count := 0
    phase_1_resets := 0
    phase_2_resets := 0
    total_withdrawn := 0
    total_profit_generated := 0
    trading_paused := false }

/-- `get_current_phase`. -/
def get_current_phase (cfg : Config) (s : VirtualBalance) : String :=
  if s.starting_balance < cfg.phase_1_threshold then "growth" else "extraction"

/-- `check_auto_reset` (the log lines and `save_state()` call carry no state). -/
def check_auto_reset (cfg : Config) (s : VirtualBalance) : VirtualBalance × Bool :=
  if s.current_balance ≥ s.starting_balance * (1 + PROFIT_RESET_THRESHOLD) then
    let profit := s.current_balance - s.starting_balance
    let phase := get_current_phase cfg s
    let reinvest_pct := if phase = "growth" then PHASE_1_REINVEST else PHASE_2_REINVEST
    let withdraw_amount := profit * (1 - reinvest_pct)
    let new_starting := s.starting_balance + profit * reinvest_pct
    ({ s with
        starting_balance := new_starting
        current_balance := new_starting
        peak_balance := new_starting
        max_drawdown := 0
        total_withdrawn := s.total_withdrawn + withdraw_amount
        total_profit_generated := s.total_profit_generated + profit
        reset_count := s.reset_count + 1
        phase_1_resets := if phase = "growth" then s.phase_1_resets + 1 else s.phase_1_resets
        phase_2_resets := if phase = "growth" then s.phase_2_resets else s.phase_2_resets + 1 },
      true)
  else (s, false)

/-- `calculate_tp_sl`. -/
def calculate_tp_sl (cfg : Config) (side : Side) (entry_price : ℚ) : ℚ × ℚ :=
  if side = Side.long then
    (entry_price * (1 + cfg.take_profit_pct / 100), entry_price * (1 - cfg.stop_loss_pct / 100))
  else
    (entry_price * (1 - cfg.take_profit_pct / 100), entry_price * (1 + cfg.stop_loss_pct / 100))

/-- `open_position` (`save_state()` and `_start_monitoring()` are I/O). -/
def open_position (cfg : Config) (s : VirtualBalance) (side : Side)
    (entry_price qty : ℚ) (open_time : Nat) : VirtualBalance × Bool :=
  match s.current_position with
  | some _ => (s, false)
  | none =>
    let tpsl := calculate_tp_sl cfg side entry_price
    let pos : Position :=
      { side := side
        entry_price := entry_price
        qty := qty
        tp_price := tpsl.1
        sl_price := tpsl.2
        open_time := open_time }
    ({ s with current_position := some pos }, true)

/-- `recent_pnls.append(pnl)` on a `deque(maxlen=10)`. -/
def push_recent (l : List ℚ) (p : ℚ) : List ℚ :=
  let l2 := l ++ [p]
  if l2.length > 10 then l2.drop (l2.length - 10) else l2

/-- The body of `close_position` up to (and excluding) the
`check_auto_reset` / `check_emergency_stop` hooks, for an open position
`pos`; `today` is `datetime.now().date()`. -/
def close_core (s : VirtualBalance) (pos : Position) (exit_price : ℚ)
    (reason : String) (today : Nat) : VirtualBalance × ℚ :=
  let price_change :=
    if pos.side = Side.long then (exit_price - pos.entry_price) / pos.entry_price
    else (pos.entry_price - exit_price) / pos.entry_price
  let pnl := pos.qty * pos.entry_price * price_change
  let new_balance := s.current_balance + pnl
  let new_peak := if new_balance > s.peak_balance then new_balance else s.peak_balance
  let drawdown := (new_peak - new_balance) / new_peak * 100
  let new_md := if drawdown > s.max_drawdown then drawdown else s.max_drawdown
  let base_daily := if s.last_trade_date ≠ some today then 0 else s.daily_trade_count
  ({ s with
      current_balance := new_balance
      total_pnl := s.total_pnl + pnl
      total_trades := s.total_trades + 1
      recent_pnls := push_recent s.recent_pnls pnl
      winning_trades := if pnl > 0 then s.winning_trades + 1 else s.winning_trades
      losing_trades := if pnl > 0 then s.losing_trades else s.losing_trades + 1
      consecutive_losses := if pnl > 0 then 0 else s.consecutive_losses + 1
      peak_balance := new_peak
      max_drawdown := new_md
      daily_trade_count := base_daily + 1
      last_trade_date := some today
      trade_history := s.trade_history ++
        [{ side := pos.side
           entry_price := pos.entry_price
           exit_price := exit_price
           qty := pos.qty
           pnl := pnl
           balance_after := new_balance
           close_time := today
           close_reason := reason }]
      current_position := none },
    pnl)

/-- The `check_emergency_stop` trigger condition
(`self.max_drawdown >= MAX_DRAWDOWN_STOP and not self.trading_paused`). -/
def emergency_fire (cfg : Config) (s : VirtualBalance) : Prop :=
  s.max_drawdown ≥ cfg.max_drawdown_stop ∧ s.trading_paused = false

instance (cfg : Config) (s : VirtualBalance) : Decidable (emergency_fire cfg s) :=
  inferInstanceAs (Decidable (_ ∧ _))

/-- `close_position`.  Its trailing `check_emergency_stop()` call runs with
`current_position` already `None`, so the force-close branch of that check
is vacuous there and only the pause assignment remains. -/
def close_position (cfg : Config) (s : VirtualBalance) (exit_price : ℚ)
    (reason : String) (today : Nat) : VirtualBalance × ℚ :=
  match s.current_position with
  | none => (s, 0)
  | some pos =>
    let r1 := close_core s pos exit_price reason today
    let s2 := (check_auto_reset cfg r1.1).1
    let s3 := if emergency_fire cfg s2 then { s2 with trading_paused := true } else s2
    (s3, r1.2)

/-- `check_emergency_stop` as called from anywhere (e.g. a state with an
open position): it pauses, then — if a position is open and a price could
be fetched — closes it at that price with reason `"emergency_stop"`.  The
nested `close_position` runs with `trading_paused` already true, so its own
emergency check cannot re-fire. -/
def check_emergency_stop (cfg : Config) (s : VirtualBalance)
    (price : Option ℚ) (today : Nat) : VirtualBalance × Bool :=
  if emergency_fire cfg s then
    let s1 := { s with trading_paused := true }
    match s.current_position, price with
    | some _, some p => ((close_position cfg s1 p "emergency_stop" today).1, true)
    | _, _ => (s1, true)
  else (s, false)

/-- `_emergency_close`: closes the open position at its own entry price with
reason `"emergency"` (Python returns `None` when no position is open; we
return the unchanged state with pnl 0 for that vacuous case). -/
def emergency_close (cfg : Config) (s : VirtualBalance) (today : Nat) :
    VirtualBalance × ℚ :=
  match s.current_position with
  | none => (s, 0)
  | some pos => close_position cfg s pos.entry_price "emergency" today

/-- `_calculate_daily_drawdown`; `today` is `datetime.now().date()`. -/
def calculate_daily_drawdown (s : VirtualBalance) (today : Nat) : ℚ :=
  if s.trade_history = [] then 0
  else
    let today_trades := s.trade_history.filter (fun t => t.close_time = today)
    if today_trades = [] then 0
    else
      let daily_pnl := (today_trades.map (fun t => t.pnl)).sum
      let balance_start_of_day := s.current_balance - daily_pnl
      if balance_start_of_day ≤ 0 then 0
      else |min 0 daily_pnl / balance_start_of_day * 100|

/-- `should_trade`. -/
def should_trade (s : VirtualBalance) (today : Nat) : Bool :=
  if s.trading_paused then false
  else if calculate_daily_drawdown s today > 20 then false
  else if s.consecutive_losses ≥ 5 then false
  else if s.current_balance < s.initial_balance * 0.3 then false
  else true

/-- The `/resume` route body (authentication is external I/O). -/
def resume_trading (s : VirtualBalance) : VirtualBalance :=
  if s.trading_paused then { s with trading_paused := false, max_drawdown := 0 } else s

/-- Python `round` ties-to-even on an exact rational. -/
def round_half_even (x : ℚ) : ℤ :=
  if x - ⌊x⌋ = 1 / 2 then (if 2 ∣ ⌊x⌋ then ⌊x⌋ else ⌊x⌋ + 1) else round x

/-- `round(x, 3)` on an exact rational. -/
def round3 (x : ℚ) : ℚ := (round_half_even (x * 1000) : ℚ) / 1000

/-- `calculate_position_size`. -/
def calculate_position_size (balance price leverage risk_pct : ℚ) : ℚ :=
  let position_value := balance * (risk_pct / 100) * leverage
  let qty := round3 (position_value / price)
  max qty 0.001

/-- `hit_tp` in `monitor_position`. -/
def hit_tp (pos : Position) (price : ℚ) : Bool :=
  (decide (pos.side = Side.long) && decide (price ≥ pos.tp_price)) ||
  (decide (pos.side = Side.short) && decide (price ≤ pos.tp_price))

/-- `hit_sl` in `monitor_position`. -/
def hit_sl (pos : Position) (price : ℚ) : Bool :=
  (decide (pos.side = Side.long) && decide (price ≤ pos.sl_price)) ||
  (decide (pos.side = Side.short) && decide (price ≥ pos.sl_price))

/-- One successful-fetch iteration of `monitor_position`: with the fetched
`price`, either close (reason `"TP"` if `hit_tp` else `"SL"`) or keep
watching.  Returns the new state and the close reason, if any. -/
def monitor_on_price (cfg : Config) (s : VirtualBalance) (price : ℚ)
    (today : Nat) : VirtualBalance × Option String :=
  match s.current_position with
  | none => (s, none)
  | some pos =>
    if hit_tp pos price || hit_sl pos price then
      let reason := if hit_tp pos price then "TP" else "SL"
      ((close_position cfg s price reason today).1, some reason)
    else (s, none)

/-- The dict written by `save_state` (exactly the keys it serialises). -/
structure SavedState where
  initial_balance : ℚ
  starting_balance : ℚ
  current_balance : ℚ
  total_trades : Nat
  winning_trades : Nat
  losing_trades : Nat
  total_pnl : ℚ
  trade_history : List TradeRecord
  current_position : Option Position
  max_drawdown : ℚ
  peak_balance : ℚ
  consecutive_losses : Nat
  reset_count : Nat
  phase_1_resets : Nat
  phase_2_resets : Nat
  total_withdrawn : ℚ
  total_profit_generated : ℚ
  trading_paused : Bool
deriving DecidableEq, Repr

/-- `save_state`. -/
def save_state (s : VirtualBalance) : SavedState :=
  { initial_balance := s.initial_balance
    starting_balance := s.starting_balance
    current_balance := s.current_balance
    total_trades := s.total_trades
    winning_trades := s.winning_trades
    losing_trades := s.losing_trades
    total_pnl := s.total_pnl
    trade_history := s.trade_history
    current_position := s.current_position
    max_drawdown := s.max_drawdown
    peak_balance := s.peak_balance
    consecutive_losses := s.consecutive_losses
    reset_count := s.reset_count
    phase_1_resets := s.phase_1_resets
    phase_2_resets := s.phase_2_resets
    total_withdrawn := s.total_withdrawn
    total_profit_generated := s.total_profit_generated
    trading_paused := s.trading_paused }

/-- `load_state`: constructs `VirtualBalance(st['initial_balance'])` and then
overwrites exactly the persisted fields; every key is present in a snapshot
written by `save_state`, so the `st.get(..., default)` fallbacks never fire.
The fields not in the snapshot (`recent_pnls`, `daily_trade_count`,
`last_trade_date`) keep their `__init__` defaults. -/
def load_state (st : SavedState) : VirtualBalance :=
  { VirtualBalance.init st.initial_balance with
    starting_balance := st.starting_balance
    current_balance := st.current_balance
    total_trades := st.total_trades
    winning_trades := st.winning_trades
    losing_trades := st.losing_trades
    total_pnl := st.total_pnl
    trade_history := st.trade_history
    current_position := st.current_position
    max_drawdown := st.max_drawdown
    peak_balance := st.peak_balance
    consecutive_losses := st.consecutive_losses
    reset_count := st.reset_count
    phase_1_resets := st.phase_1_resets
    phase_2_resets := st.phase_2_resets
    total_withdrawn := st.total_withdrawn
    total_profit_generated := st.total_profit_generated
    trading_paused := st.trading_paused }

/-- The ledger operations reachable from outside (webhook open/close,
manual resume, emergency-stop check). -/
inductive Op where
  | openP (side : Side) (entry_price qty : ℚ) (open_time : Nat)
  | closeP (exit_price : ℚ) (reason : String) (today : Nat)
  | resume
  | emergencyCheck (price : Option ℚ) (today : Nat)
deriving DecidableEq, Repr

/-- One ledger operation applied to the state. -/
def step (cfg : Config) (s : VirtualBalance) : Op → VirtualBalance
  | Op.openP side p q t => (open_position cfg s side p q t).1
  | Op.closeP p r d => (close_position cfg s p r d).1
  | Op.resume => resume_trading s
  | Op.emergencyCheck p d => (check_emergency_stop cfg s p d).1

/-- A sequence of ledger operations. -/
def run (cfg : Config) (s : VirtualBalance) (ops : List Op) : VirtualBalance :=
  ops.foldl (step cfg) s

/-! ### Field-preservation lemmas -/

theorem close_core_starting (s : VirtualBalance) (pos : Position) (x : ℚ) (r : String)
    (d : Nat) : ((close_core s pos x r d).1).starting_balance = s.starting_balance := rfl

theorem close_core_paused (s : VirtualBalance) (pos : Position) (x : ℚ) (r : String)
    (d : Nat) : ((close_core s pos x r d).1).trading_paused = s.trading_paused := rfl

theorem close_core_position (s : VirtualBalance) (pos : Position) (x : ℚ) (r : String)
    (d : Nat) : ((close_core s pos x r d).1).current_position = none := rfl

theorem close_core_balance (s : VirtualBalance) (pos : Position) (x : ℚ) (r : String)
    (d : Nat) :
    ((close_core s pos x r d).1).current_balance =
      s.current_balance + (close_core s pos x r d).2 := rfl

theorem close_core_pnl (s : VirtualBalance) (pos : Position) (x : ℚ) (r : String)
    (d : Nat) :
    (close_core s pos x r d).2 =
      pos.qty * pos.entry_price *
        (if pos.side = Side.long then (x - pos.entry_price) / pos.entry_price
         else (pos.entry_price - x) / pos.entry_price) := rfl

theorem check_auto_reset_paused (cfg : Config) (s : VirtualBalance) :
    ((check_auto_reset cfg s).1).trading_paused = s.trading_paused := by
  unfold check_auto_reset
  split <;> rfl

theorem check_auto_reset_position (cfg : Config) (s : VirtualBalance) :
    ((check_auto_reset cfg s).1).current_position = s.current_position := by
  unfold check_auto_reset
  split <;> rfl

theorem check_auto_reset_win_loss (cfg : Config) (s : VirtualBalance) :
    ((check_auto_reset cfg s).1).winning_trades = s.winning_trades ∧
    ((check_auto_reset cfg s).1).losing_trades = s.losing_trades ∧
    ((check_auto_reset cfg s).1).consecutive_losses = s.consecutive_losses := by
  unfold check_auto_reset
  split <;> exact ⟨rfl, rfl, rfl⟩

/-! ### C2: save/load round trip -/

/-- A reachable-looking state whose `daily_trade_count` is non-zero (as it is
after any close on a fresh day). -/
def c2_state : VirtualBalance :=
  { VirtualBalance.init 20 with daily_trade_count := 1, last_trade_date := some 5 }

/-- C2 (counterexample): `daily_trade_count` is not persisted by `save_state`;
a state with `daily_trade_count = 1` does not round-trip. -/
theorem c2_counterexample : load_state (save_state c2_state) ≠ c2_state := by
  intro h
  have h1 : (load_state (save_state c2_state)).daily_trade_count = 0 := rfl
  rw [h] at h1
  exact absurd h1 (by simp [c2_state])

/-- C2 (amended): saving then loading reproduces every persisted field exactly
(all eighteen keys written by `save_state`, including the open Position and the
trade history); the fields `save_state` omits — `recent_pnls`,
`daily_trade_count`, `last_trade_date` — come back at their `__init__`
defaults (`[]`, `0`, `None`). -/
theorem c2_roundtrip_persisted_fields (vb : VirtualBalance) :
    load_state (save_state vb) =
      { vb with recent_pnls := [], daily_trade_count := 0, last_trade_date := none } := rfl

/-! ### C3: invalid inputs are no-ops -/

/-- C3: opening while a position is open returns `false` and changes nothing;
closing with no open position returns `0` and changes nothing. -/
theorem c3_invalid_inputs_noop (cfg : Config) (s : VirtualBalance) :
    (∀ pos side p q t, s.current_position = some pos →
      open_position cfg s side p q t = (s, false)) ∧
    (∀ p r d, s.current_position = none → close_position cfg s p r d = (s, 0)) := by
  constructor
  · intro pos side p q t h
    simp [open_position, h]
  · intro p r d h
    simp [close_position, h]

/-- A state holding one long position, built through `open_position` itself. -/
def sample_open (b e q : ℚ) : VirtualBalance :=
  (open_position defaultConfig (VirtualBalance.init b) Side.long e q 0).1

/-- Witness for C3 at concrete states. -/
theorem c3_witness :
    open_position defaultConfig (sample_open 20 100 1) Side.short 50 2 7 =
      (sample_open 20 100 1, false) ∧
    close_position defaultConfig (VirtualBalance.init 20) 100 "normal" 0 =
      (VirtualBalance.init 20, 0) := by
  constructor
  · exact (c3_invalid_inputs_noop defaultConfig (sample_open 20 100 1)).1
      { side := Side.long, entry_price := 100, qty := 1
        tp_price := (calculate_tp_sl defaultConfig Side.long 100).1
        sl_price := (calculate_tp_sl defaultConfig Side.long 100).2
        open_time := 0 }
      Side.short 50 2 7 rfl
  · exact (c3_invalid_inputs_noop defaultConfig (VirtualBalance.init 20)).2 100 "normal" 0 rfl

/-! ### C5: TP/SL prices computed at open -/

/-- C5: for a long, `tp = p*(1 + tpPct/100)` and `sl = p*(1 - slPct/100)`;
for a short, `tp = p*(1 - tpPct/100)` and `sl = p*(1 + slPct/100)`. -/
theorem c5_tp_sl_formula (cfg : Config) (side : Side) (p : ℚ) :
    calculate_tp_sl cfg side p =
      match side with
      | Side.long => (p * (1 + cfg.take_profit_pct / 100), p * (1 - cfg.stop_loss_pct / 100))
      | Side.short => (p * (1 - cfg.take_profit_pct / 100), p * (1 + cfg.stop_loss_pct / 100)) := by
  cases side <;> simp [calculate_tp_sl]

/-! ### C7: auto-reset characterisation -/

/-- C7: at or above the trigger `startingBalance * (1 + PROFIT_RESET_THRESHOLD)`
the reset fires and rebases `startingBalance`, `currentBalance`, `peakBalance`
to `startingBalance + profit*reinvestFraction` (reinvest 1 in growth, 0.05 in
extraction), zeroes `maxDrawdownPct`, accumulates `totalWithdrawn` and
`totalProfitRealized`, and increments the current phase's counter; below the
trigger nothing changes. -/
theorem c7_auto_reset_spec (cfg : Config) (s : VirtualBalance) :
    (s.current_balance ≥ s.starting_balance * (1 + PROFIT_RESET_THRESHOLD) →
      (check_auto_reset cfg s).2 = true ∧
      ((check_auto_reset cfg s).1).starting_balance =
        s.starting_balance + (s.current_balance - s.starting_balance) *
          (if s.starting_balance < cfg.phase_1_threshold then (1 : ℚ) else 0.05) ∧
      ((check_auto_reset cfg s).1).current_balance =
        ((check_auto_reset cfg s).1).starting_balance ∧
      ((check_auto_reset cfg s).1).peak_balance =
        ((check_auto_reset cfg s).1).starting_balance ∧
      ((check_auto_reset cfg s).1).max_drawdown = 0 ∧
      ((check_auto_reset cfg s).1).total_withdrawn =
        s.total_withdrawn + (s.current_balance - s.starting_balance) *
          (1 - if s.starting_balance < cfg.phase_1_threshold then (1 : ℚ) else 0.05) ∧
      ((check_auto_reset cfg s).1).total_profit_generated =
        s.total_profit_generated + (s.current_balance - s.starting_balance) ∧
      (s.starting_balance < cfg.phase_1_threshold →
        ((check_auto_reset cfg s).1).phase_1_resets = s.phase_1_resets + 1 ∧
        ((check_auto_reset cfg s).1).phase_2_resets = s.phase_2_resets) ∧
      (¬ s.starting_balance < cfg.phase_1_threshold →
        ((check_auto_reset cfg s).1).phase_2_resets = s.phase_2_resets + 1 ∧
        ((check_auto_reset cfg s).1).phase_1_resets = s.phase_1_resets)) ∧
    (¬ s.current_balance ≥ s.starting_balance * (1 + PROFIT_RESET_THRESHOLD) →
      check_auto_reset cfg s = (s, false)) := by
  have hne : ("extraction" : String) ≠ "growth" := by decide
  constructor
  · intro hc
    by_cases hg : s.starting_balance < cfg.phase_1_threshold
    · simp [check_auto_reset, get_current_phase, hc, hg, PHASE_1_REINVEST]
    · simp [check_auto_reset, get_current_phase, hc, hg, hne, PHASE_2_REINVEST]
  · intro hc
    simp [check_auto_reset, hc]

/-- Witness for C7: starting 20, balance 70 fires a growth reset rebasing to 70. -/
theorem c7_witness :
    ((check_auto_reset defaultConfig
        { VirtualBalance.init 20 with current_balance := 70 }).1).starting_balance = 70 := by
  have h := (c7_auto_reset_spec defaultConfig
      { VirtualBalance.init 20 with current_balance := 70 }).1
    (by norm_num [VirtualBalance.init, PROFIT_RESET_THRESHOLD])
  have h2 := h.2.1
  norm_num [VirtualBalance.init, defaultConfig] at h2
  exact h2

/-! ### C1: balance additivity across close -/

/-- An extraction-phase state (starting balance at the phase threshold) with a
long position of quantity 60 at entry 100. -/
def c1_state : VirtualBalance :=
  (open_position defaultConfig (VirtualBalance.init 2000) Side.long 100 60 0).1

/-- C1 (counterexample): closing the position of `c1_state` at exit price 200
yields pnl 6000, which trips the 200%-profit auto-reset in extraction phase
(reinvest 5%): the balance after `close_position` is 2300, not 2000 + 6000. -/
theorem c1_counterexample :
    ¬ ((close_position defaultConfig c1_state 200 "normal" 0).1.current_balance =
        c1_state.current_balance + (close_position defaultConfig c1_state 200 "normal" 0).2) := by
  have hne : ¬ ("extraction" : String) = "growth" := by decide
  norm_num [hne, c1_state, close_position, close_core, check_auto_reset, get_current_phase,
    emergency_fire, push_recent, open_position, calculate_tp_sl, VirtualBalance.init,
    defaultConfig, PROFIT_RESET_THRESHOLD, PHASE_1_REINVEST, PHASE_2_REINVEST]

/-- C1 (amended): `currentBalance` after `close_position` equals the balance
before plus the returned pnl, across the auto-reset and emergency-stop hooks,
provided the close does not trip an extraction-phase auto-reset: i.e. whenever
either no reset fires (post-pnl balance below the trigger) or the ledger is in
growth phase (where the reset reinvests 100% and so preserves the balance). -/
theorem c1_balance_additive_unless_extraction_reset (cfg : Config) (s : VirtualBalance)
    (pos : Position) (x : ℚ) (r : String) (d : Nat)
    (h : s.current_position = some pos)
    (hnr : s.current_balance + (close_position cfg s x r d).2 <
            s.starting_balance * (1 + PROFIT_RESET_THRESHOLD) ∨
           s.starting_balance < cfg.phase_1_threshold) :
    ((close_position cfg s x r d).1).current_balance =
      s.current_balance + (close_position cfg s x r d).2 := by
  have hpnl : (close_position cfg s x r d).2 = (close_core s pos x r d).2 := by
    simp [close_position, h]
  have hb1 : ((close_core s pos x r d).1).current_balance =
      s.current_balance + (close_core s pos x r d).2 := close_core_balance s pos x r d
  have hst1 : ((close_core s pos x r d).1).starting_balance = s.starting_balance :=
    close_core_starting s pos x r d
  have hres : (close_position cfg s x r d).1 =
      (if emergency_fire cfg ((check_auto_reset cfg (close_core s pos x r d).1).1) then
        { (check_auto_reset cfg (close_core s pos x r d).1).1 with trading_paused := true }
      else (check_auto_reset cfg (close_core s pos x r d).1).1) := by
    simp [close_position, h]
  have hpause : ((close_position cfg s x r d).1).current_balance =
      ((check_auto_reset cfg (close_core s pos x r d).1).1).current_balance := by
    rw [hres]; split <;> rfl
  rw [hpause, hpnl, ← hb1]
  by_cases hc : ((close_core s pos x r d).1).current_balance ≥
      ((close_core s pos x r d).1).starting_balance * (1 + PROFIT_RESET_THRESHOLD)
  · rcases hnr with hlt | hgr
    · exfalso
      rw [hpnl, ← hb1] at hlt
      rw [hst1] at hc
      linarith
    · have hg1 : ((close_core s pos x r d).1).starting_balance < cfg.phase_1_threshold :=
        hst1 ▸ hgr
      simp [check_auto_reset, get_current_phase, hc, hg1, PHASE_1_REINVEST]
  · simp [check_auto_reset, hc]

/-- Witness for C1: a small winning close with no reset. -/
theorem c1_witness :
    ((close_position defaultConfig (sample_open 20 100 1) 101 "normal" 0).1).current_balance =
      (sample_open 20 100 1).current_balance +
        (close_position defaultConfig (sample_open 20 100 1) 101 "normal" 0).2 := by
  refine c1_balance_additive_unless_extraction_reset defaultConfig (sample_open 20 100 1)
    { side := Side.long, entry_price := 100, qty := 1
      tp_price := (calculate_tp_sl defaultConfig Side.long 100).1
      sl_price := (calculate_tp_sl defaultConfig Side.long 100).2
      open_time := 0 }
    101 "normal" 0 rfl (Or.inr ?_)
  norm_num [sample_open, open_position, VirtualBalance.init, defaultConfig]

/-! ### C4: pnl formula and Scenario A -/

/-- C4: `close_position` returns `qty * entry * ((exit-entry)/entry)` for a
long and `qty * entry * ((entry-exit)/entry)` for a short, with no extra
leverage factor; concretely, balance 20, leverage 11, risk 30%, price 100
sizes to 0.66, and closing that long at 101.3 returns pnl 0.858 for a new
balance of 20.858. -/
theorem c4_pnl_formula_and_scenario :
    (∀ (cfg : Config) (s : VirtualBalance) (pos : Position) (x : ℚ) (r : String) (d : Nat),
      s.current_position = some pos →
      (close_position cfg s x r d).2 =
        pos.qty * pos.entry_price *
          (if pos.side = Side.long then (x - pos.entry_price) / pos.entry_price
           else (pos.entry_price - x) / pos.entry_price)) ∧
    calculate_position_size 20 100 11 30 = 0.66 ∧
    (close_position defaultConfig (sample_open 20 100 0.66) 101.3 "TP" 0).2 = 0.858 ∧
    ((close_position defaultConfig (sample_open 20 100 0.66) 101.3 "TP" 0).1).current_balance =
      20.858 := by
  refine ⟨?_, ?_, ?_, ?_⟩
  · intro cfg s pos x r d h
    simp [close_position, h, close_core]
  · norm_num [calculate_position_size, round3, round_half_even, round_eq]
  · norm_num [sample_open, open_position, calculate_tp_sl, close_position, close_core,
      check_auto_reset, get_current_phase, emergency_fire, push_recent,
      VirtualBalance.init, defaultConfig, PROFIT_RESET_THRESHOLD]
  · norm_num [sample_open, open_position, calculate_tp_sl, close_position, close_core,
      check_auto_reset, get_current_phase, emergency_fire, push_recent,
      VirtualBalance.init, defaultConfig, PROFIT_RESET_THRESHOLD]

/-- Witness for C4's general conjunct at a concrete losing close. -/
theorem c4_witness :
    (close_position defaultConfig (sample_open 20 100 1) 99 "SL" 0).2 =
      1 * 100 * ((99 - 100) / 100) := by
  have h := c4_pnl_formula_and_scenario.1 defaultConfig (sample_open 20 100 1)
    { side := Side.long, entry_price := 100, qty := 1
      tp_price := (calculate_tp_sl defaultConfig Side.long 100).1
      sl_price := (calculate_tp_sl defaultConfig Side.long 100).2
      open_time := 0 }
    99 "SL" 0 rfl
  simpa using h

/-! ### C6: risk monitor trigger decision -/

/-- C6: for a position whose TP/SL came from `calculate_tp_sl` (positive entry
price and percentages), a long hits TP iff `price ≥ tpPrice` and SL iff
`price ≤ slPrice`, a short is the mirror, and on a hit the monitor closes at
the fetched price with reason `"TP"` / `"SL"` respectively. -/
theorem c6_monitor_trigger (cfg : Config) (pos : Position) (price : ℚ)
    (he : 0 < pos.entry_price) (htp : 0 < cfg.take_profit_pct) (hsl : 0 < cfg.stop_loss_pct)
    (h4 : pos.tp_price = (calculate_tp_sl cfg pos.side pos.entry_price).1)
    (h5 : pos.sl_price = (calculate_tp_sl cfg pos.side pos.entry_price).2) :
    (hit_tp pos price = true ↔
      ((pos.side = Side.long ∧ pos.tp_price ≤ price) ∨
       (pos.side = Side.short ∧ price ≤ pos.tp_price))) ∧
    (hit_sl pos price = true ↔
      ((pos.side = Side.long ∧ price ≤ pos.sl_price) ∨
       (pos.side = Side.short ∧ pos.sl_price ≤ price))) ∧
    (∀ (s : VirtualBalance) (d : Nat), s.current_position = some pos →
      (hit_tp pos price = true →
        monitor_on_price cfg s price d = ((close_position cfg s price "TP" d).1, some "TP")) ∧
      (hit_sl pos price = true →
        monitor_on_price cfg s price d = ((close_position cfg s price "SL" d).1, some "SL"))) := by
  obtain ⟨side, e, q, tp, sl, t⟩ := pos
  simp only at he h4 h5
  cases side
  case long =>
    simp [calculate_tp_sl] at h4 h5
    subst h4; subst h5
    refine ⟨by simp [hit_tp], by simp [hit_sl], ?_⟩
    intro s d hs
    constructor
    · intro ht
      simp [monitor_on_price, hs, ht]
    · intro hs2
      have hp : price ≤ e * (1 - cfg.stop_loss_pct / 100) := by simpa [hit_sl] using hs2
      have hlt : e * (1 - cfg.stop_loss_pct / 100) < e * (1 + cfg.take_profit_pct / 100) := by
        have hd : (1 - cfg.stop_loss_pct / 100) < (1 + cfg.take_profit_pct / 100) := by linarith
        exact mul_lt_mul_of_pos_left hd he
      have hnt : hit_tp
          { side := Side.long, entry_price := e, qty := q
            tp_price := e * (1 + cfg.take_profit_pct / 100)
            sl_price := e * (1 - cfg.stop_loss_pct / 100), open_time := t } price = false := by
        simp [hit_tp]
        linarith
      simp [monitor_on_price, hs, hs2, hnt]
  case short =>
    simp [calculate_tp_sl] at h4 h5
    subst h4; subst h5
    refine ⟨by simp [hit_tp], by simp [hit_sl], ?_⟩
    intro s d hs
    constructor
    · intro ht
      simp [monitor_on_price, hs, ht]
    · intro hs2
      have hp : e * (1 + cfg.stop_loss_pct / 100) ≤ price := by simpa [hit_sl] using hs2
      have hlt : e * (1 - cfg.take_profit_pct / 100) < e * (1 + cfg.stop_loss_pct / 100) := by
        have hd : (1 - cfg.take_profit_pct / 100) < (1 + cfg.stop_loss_pct / 100) := by linarith
        exact mul_lt_mul_of_pos_left hd he
      have hnt : hit_tp
          { side := Side.short, entry_price := e, qty := q
            tp_price := e * (1 - cfg.take_profit_pct / 100)
            sl_price := e * (1 + cfg.stop_loss_pct / 100), open_time := t } price = false := by
        simp [hit_tp]
        linarith
      simp [monitor_on_price, hs, hs2, hnt]

/-- Witness for C6: the long at entry 100 (TP 101.3) hits TP at price 101.3. -/
theorem c6_witness :
    hit_tp
      { side := Side.long, entry_price := 100, qty := 1
        tp_price := 101.3, sl_price := 99.25, open_time := 0 } 101.3 = true := by
  refine (c6_monitor_trigger defaultConfig _ 101.3 (by norm_num) (by norm_num [defaultConfig])
      (by norm_num [defaultConfig]) (by norm_num [calculate_tp_sl, defaultConfig])
      (by norm_num [calculate_tp_sl, defaultConfig])).1.mpr ?_
  exact Or.inl ⟨rfl, by norm_num⟩

/-! ### More preservation lemmas (close/open/step) -/

theorem open_position_paused (cfg : Config) (s : VirtualBalance) (sd : Side) (p q : ℚ)
    (t : Nat) : ((open_position cfg s sd p q t).1).trading_paused = s.trading_paused := by
  cases hp : s.current_position <;> simp [open_position, hp]

theorem open_position_starting (cfg : Config) (s : VirtualBalance) (sd : Side) (p q : ℚ)
    (t : Nat) : ((open_position cfg s sd p q t).1).starting_balance = s.starting_balance := by
  cases hp : s.current_position <;> simp [open_position, hp]

theorem pause_if_starting (cfg : Config) (s2 : VirtualBalance) :
    (if emergency_fire cfg s2 then { s2 with trading_paused := true } else s2).starting_balance
      = s2.starting_balance := by
  split <;> rfl

theorem pause_if_balance (cfg : Config) (s2 : VirtualBalance) :
    (if emergency_fire cfg s2 then { s2 with trading_paused := true } else s2).current_balance
      = s2.current_balance := by
  split <;> rfl

theorem close_position_paused_of_paused (cfg : Config) (s : VirtualBalance) (x : ℚ)
    (r : String) (d : Nat) (h : s.trading_paused = true) :
    ((close_position cfg s x r d).1).trading_paused = true := by
  cases hp : s.current_position with
  | none => simpa [close_position, hp] using h
  | some pos =>
    simp only [close_position, hp]
    split
    · rfl
    · rw [check_auto_reset_paused, close_core_paused]
      exact h

theorem close_position_position_none (cfg : Config) (s : VirtualBalance) (pos : Position)
    (x : ℚ) (r : String) (d : Nat) (h : s.current_position = some pos) :
    ((close_position cfg s x r d).1).current_position = none := by
  simp only [close_position, h]
  split
  · show ((check_auto_reset cfg _).1).current_position = none
    rw [check_auto_reset_position, close_core_position]
  · rw [check_auto_reset_position, close_core_position]

theorem check_auto_reset_starting_mono (cfg : Config) (s : VirtualBalance)
    (h : 0 < s.starting_balance) :
    s.starting_balance ≤ ((check_auto_reset cfg s).1).starting_balance ∧
    0 < ((check_auto_reset cfg s).1).starting_balance := by
  by_cases hc : s.current_balance ≥ s.starting_balance * (1 + PROFIT_RESET_THRESHOLD)
  · have hc2 : s.starting_balance * 3 ≤ s.current_balance := by
      have := hc
      norm_num [PROFIT_RESET_THRESHOLD] at this
      linarith
    by_cases hg : s.starting_balance < cfg.phase_1_threshold
    · simp [check_auto_reset, hc, get_current_phase, hg, PHASE_1_REINVEST]
      constructor <;> nlinarith
    · have hne : ¬ ("extraction" : String) = "growth" := by decide
      simp [check_auto_reset, hc, get_current_phase, hg, hne, PHASE_2_REINVEST]
      constructor <;> nlinarith
  · simp [check_auto_reset, hc, h]

theorem close_position_starting_mono (cfg : Config) (s : VirtualBalance) (x : ℚ)
    (r : String) (d : Nat) (h : 0 < s.starting_balance) :
    s.starting_balance ≤ ((close_position cfg s x r d).1).starting_balance ∧
    0 < ((close_position cfg s x r d).1).starting_balance := by
  cases hp : s.current_position with
  | none => simp [close_position, hp, h]
  | some pos =>
    simp only [close_position, hp]
    have hcore : ((close_core s pos x r d).1).starting_balance = s.starting_balance :=
      close_core_starting s pos x r d
    have h1 : 0 < ((close_core s pos x r d).1).starting_balance := hcore ▸ h
    have hm := check_auto_reset_starting_mono cfg ((close_core s pos x r d).1) h1
    rw [pause_if_starting]
    exact ⟨hcore ▸ hm.1, hm.2⟩

theorem resume_starting (s : VirtualBalance) :
    (resume_trading s).starting_balance = s.starting_balance := by
  unfold resume_trading
  split <;> rfl

theorem check_emergency_stop_starting_mono (cfg : Config) (s : VirtualBalance)
    (p : Option ℚ) (d : Nat) (h : 0 < s.starting_balance) :
    s.starting_balance ≤ ((check_emergency_stop cfg s p d).1).starting_balance ∧
    0 < ((check_emergency_stop cfg s p d).1).starting_balance := by
  unfold check_emergency_stop
  split
  · cases hp : s.current_position with
    | none => simp [hp, h]
    | some pos =>
      cases p with
      | none => simp [hp, h]
      | some q =>
        simp only [hp]
        exact close_position_starting_mono cfg _ q "emergency_stop" d h
  · exact ⟨le_refl _, h⟩

theorem step_starting_mono (cfg : Config) (s : VirtualBalance) (op : Op)
    (h : 0 < s.starting_balance) :
    s.starting_balance ≤ (step cfg s op).starting_balance ∧
    0 < (step cfg s op).starting_balance := by
  cases op with
  | openP sd p q t =>
    simp only [step]
    rw [open_position_starting]
    exact ⟨le_refl _, h⟩
  | closeP p r d => exact close_position_starting_mono cfg s p r d h
  | resume =>
    simp only [step]
    rw [resume_starting]
    exact ⟨le_refl _, h⟩
  | emergencyCheck p d => exact check_emergency_stop_starting_mono cfg s p d h

theorem run_starting_mono (cfg : Config) :
    ∀ (ops : List Op) (s : VirtualBalance), 0 < s.starting_balance →
      s.starting_balance ≤ (run cfg s ops).starting_balance ∧
      0 < (run cfg s ops).starting_balance := by
  intro ops
  induction ops with
  | nil => intro s h; exact ⟨le_refl _, h⟩
  | cons op rest ih =>
    intro s h
    have hs := step_starting_mono cfg s op h
    have hr := ih (step cfg s op) hs.2
    exact ⟨le_trans hs.1 hr.1, hr.2⟩

/-! ### C10: a break-even close counts as a loss -/

/-- C10: whenever the computed pnl is not strictly positive — including the
pnl of exactly 0 that `_emergency_close` always produces by exiting at the
entry price — `losingTrades` and `consecutiveLosses` are incremented and
`winningTrades` is unchanged. -/
theorem c10_breakeven_counted_loss (cfg : Config) (s : VirtualBalance) (pos : Position)
    (x : ℚ) (r : String) (d : Nat) (h : s.current_position = some pos) :
    ((close_position cfg s x r d).2 ≤ 0 →
      ((close_position cfg s x r d).1).losing_trades = s.losing_trades + 1 ∧
      ((close_position cfg s x r d).1).consecutive_losses = s.consecutive_losses + 1 ∧
      ((close_position cfg s x r d).1).winning_trades = s.winning_trades) ∧
    (emergency_close cfg s d).2 = 0 := by
  constructor
  · intro hle
    have hpnl : (close_position cfg s x r d).2 = (close_core s pos x r d).2 := by
      simp [close_position, h]
    rw [hpnl] at hle
    have hnpos : ¬ ((close_core s pos x r d).2 > 0) := not_lt.mpr hle
    have hwl := check_auto_reset_win_loss cfg ((close_core s pos x r d).1)
    have hcl : ((close_core s pos x r d).1).losing_trades = s.losing_trades + 1 := by
      simp [close_core] at hnpos ⊢
      simp [hnpos]
    have hcc : ((close_core s pos x r d).1).consecutive_losses = s.consecutive_losses + 1 := by
      simp [close_core] at hnpos ⊢
      simp [hnpos]
    have hcw : ((close_core s pos x r d).1).winning_trades = s.winning_trades := by
      simp [close_core] at hnpos ⊢
      simp [hnpos]
    simp only [close_position, h]
    refine ⟨?_, ?_, ?_⟩ <;> split <;>
      simp [hwl.1, hwl.2.1, hwl.2.2, hcl, hcc, hcw]
  · cases hp : s.current_position with
    | none => simp [emergency_close, hp]
    | some q =>
      simp [emergency_close, hp, close_position, close_core]

/-- Witness for C10: closing the sample long at its entry price (pnl 0) counts
as a loss. -/
theorem c10_witness :
    ((close_position defaultConfig (sample_open 20 100 1) 100 "normal" 0).1).losing_trades =
      (sample_open 20 100 1).losing_trades + 1 := by
  have h := (c10_breakeven_counted_loss defaultConfig (sample_open 20 100 1)
    { side := Side.long, entry_price := 100, qty := 1
      tp_price := (calculate_tp_sl defaultConfig Side.long 100).1
      sl_price := (calculate_tp_sl defaultConfig Side.long 100).2
      open_time := 0 }
    100 "normal" 0 rfl).1
    (by norm_num [close_position, close_core, sample_open, open_position,
      VirtualBalance.init, calculate_tp_sl, defaultConfig])
  exact h.1

/-! ### C8: emergency stop pauses trading until an explicit resume -/

/-- C8: if `maxDrawdownPct` is at or above the emergency threshold after a
close, `tradingPaused` is true; a firing `check_emergency_stop` on a state
with an open position pauses and force-closes it; `should_trade` is false
whenever paused; every ledger operation except `resume` preserves the paused
state; and `resume` clears both `tradingPaused` and `maxDrawdownPct`. -/
theorem c8_emergency_pause_temporal (cfg : Config) :
    (∀ (s : VirtualBalance) (today : Nat), s.trading_paused = true →
      should_trade s today = false) ∧
    (∀ (s : VirtualBalance) (pos : Position) (x : ℚ) (r : String) (d : Nat),
      s.current_position = some pos →
      ((close_position cfg s x r d).1).max_drawdown ≥ cfg.max_drawdown_stop →
      ((close_position cfg s x r d).1).trading_paused = true) ∧
    (∀ (s : VirtualBalance) (pos : Position) (p : ℚ) (d : Nat),
      s.current_position = some pos →
      s.max_drawdown ≥ cfg.max_drawdown_stop → s.trading_paused = false →
      ((check_emergency_stop cfg s (some p) d).1).trading_paused = true ∧
      ((check_emergency_stop cfg s (some p) d).1).current_position = none) ∧
    (∀ (s : VirtualBalance) (op : Op), op ≠ Op.resume → s.trading_paused = true →
      (step cfg s op).trading_paused = true) ∧
    (∀ (s : VirtualBalance), s.trading_paused = true →
      (step cfg s Op.resume).trading_paused = false ∧
      (step cfg s Op.resume).max_drawdown = 0) := by
  refine ⟨?_, ?_, ?_, ?_, ?_⟩
  · intro s today h
    simp [should_trade, h]
  · intro s pos x r d h hmd
    simp only [close_position, h] at hmd ⊢
    by_cases hf : emergency_fire cfg ((check_auto_reset cfg (close_core s pos x r d).1).1)
    · simp [hf]
    · simp only [if_neg hf] at hmd ⊢
      cases hb : ((check_auto_reset cfg (close_core s pos x r d).1).1).trading_paused with
      | false => exact absurd ⟨hmd, hb⟩ hf
      | true => rfl
  · intro s pos p d h hmd hpf
    have hf : emergency_fire cfg s := ⟨hmd, hpf⟩
    constructor
    · simp only [check_emergency_stop, if_pos hf, h]
      exact close_position_paused_of_paused cfg _ p "emergency_stop" d rfl
    · simp only [check_emergency_stop, if_pos hf, h]
      exact close_position_position_none cfg _ pos p "emergency_stop" d rfl
  · intro s op hne hp
    cases op with
    | openP sd p q t =>
      simp only [step]
      rw [open_position_paused]
      exact hp
    | closeP p r d => exact close_position_paused_of_paused cfg s p r d hp
    | resume => exact absurd rfl hne
    | emergencyCheck p d =>
      have hnf : ¬ emergency_fire cfg s := by
        intro hf
        have h2 := hf.2
        rw [hp] at h2
        exact absurd h2 (by simp)
      simp [step, check_emergency_stop, hnf, hp]
  · intro s hp
    simp [step, resume_trading, hp]

/-- Witness for C8: a paused state cannot trade. -/
theorem c8_witness :
    should_trade { VirtualBalance.init 20 with trading_paused := true } 0 = false :=
  (c8_emergency_pause_temporal defaultConfig).1
    { VirtualBalance.init 20 with trading_paused := true } 0 rfl

/-! ### C9: startingBalance never decreases, phase never reverts -/

/-- C9: from any state with positive `startingBalance`, no sequence of ledger
operations ever decreases `startingBalance`; hence once `get_current_phase`
reports `"extraction"` it never again reports `"growth"`. -/
theorem c9_phase_monotone (cfg : Config) (s : VirtualBalance) (ops : List Op)
    (h : 0 < s.starting_balance) :
    s.starting_balance ≤ (run cfg s ops).starting_balance ∧
    (get_current_phase cfg s = "extraction" →
      get_current_phase cfg (run cfg s ops) = "extraction") := by
  have hm := run_starting_mono cfg ops s h
  refine ⟨hm.1, ?_⟩
  intro hx
  have hge : ¬ s.starting_balance < cfg.phase_1_threshold := by
    intro hlt
    rw [get_current_phase, if_pos hlt] at hx
    exact absurd hx (by decide)
  have hge2 : ¬ (run cfg s ops).starting_balance < cfg.phase_1_threshold := by
    intro hlt
    exact hge (lt_of_le_of_lt hm.1 hlt)
  rw [get_current_phase, if_neg hge2]

/-- Witness for C9: starting balance 2000 (extraction) stays extraction after a
close operation. -/
theorem c9_witness :
    get_current_phase defaultConfig
      (run defaultConfig (VirtualBalance.init 2000) [Op.closeP 100 "normal" 0]) =
      "extraction" := by
  refine (c9_phase_monotone defaultConfig (VirtualBalance.init 2000)
    [Op.closeP 100 "normal" 0] (by norm_num [VirtualBalance.init])).2 ?_
  norm_num [get_current_phase, VirtualBalance.init, defaultConfig]

end MexcBot
